import Mathlib

/-!
Verification of scripts/export_depth.py: the CoreML export orchestration with the
bicubic-to-bilinear operator-compatibility fallback.

The embedding models:
* the process-wide dispatch entry torch.nn.functional.interpolate as an explicit
  state value (type Dispatch), since force_bicubic_to_bilinear mutates it and
  restores it in a finally block;
* patched_interpolate (lines 35-54) as a pure wrapper around the captured
  previous implementation;
* convert_traced_model (lines 63-80) as an application of the opaque library
  lowering function ct.convert to a fixed argument record (exportSpec);
* the try/except orchestration of main (lines 89-101) as runMain, instrumented
  with a RunLog recording every tracer invocation (with the dispatch state in
  effect during it), every lowering call (with its argument spec and the
  dispatch state in effect during it), the number of shim activations, and the
  final dispatch state.

Model loading (lines 84-87) and artifact saving (lines 103-110) are external
collaborators and out of scope.  The lowering library ct.convert is opaque: it
is a parameter cc of runMain, returning Except PyError to model Python
exceptions (NotImplementedError as a distinguished class, every other class
collapsed into otherError with its class name).
-/

/-- The state of the process-wide dispatch entry torch.nn.functional.interpolate.
original is the unpatched library implementation; patched saved is the state
after the assignment in force_bicubic_to_bilinear, whose closure captured the
previous state saved in its original_interpolate variable. -/
inductive Dispatch : Type
  | original : Dispatch
  | patched : Dispatch → Dispatch
  deriving DecidableEq, Repr

/-- An opaque tensor: a shape together with an opaque content identifier
(randomness of torch.randn is abstracted into the identifier). -/
structure PTensor where
  shape : List Nat
  value : Nat
  deriving DecidableEq, Repr

/-- torch.randn: produces a tensor of the requested shape with opaque content. -/
def torch_randn (shape : List Nat) (seed : Nat) : PTensor :=
  { shape := shape, value := seed }

/-- INPUT_SIZE = (518, 518) from line 12 of the script. -/
def INPUT_SIZE : List Nat := [518, 518]

/-- The keyword-argument record of a call to torch.nn.functional.interpolate,
with the source's parameter names (lines 35-42). -/
structure InterpArgs where
  input : PTensor
  size : Option (List Nat)
  scale_factor : Option ℚ
  mode : String
  align_corners : Option Bool
  recompute_scale_factor : Option Bool
  antialias : Bool
  deriving DecidableEq, Repr

/-- The default keyword arguments of interpolate as declared in the patched
signature (size=None, scale_factor=None, mode="nearest", align_corners=None,
recompute_scale_factor=None, antialias=False). -/
def interpDefaults (input : PTensor) : InterpArgs :=
  { input := input, size := none, scale_factor := none, mode := "nearest",
    align_corners := none, recompute_scale_factor := none, antialias := false }

/-- patched_interpolate from lines 35-54: rewrites mode "bicubic" to "bilinear"
and forwards every argument to the captured original_interpolate. -/
def patched_interpolate {ρ : Type} (original_interpolate : InterpArgs → ρ)
    (a : InterpArgs) : ρ :=
  let mode := if a.mode = "bicubic" then "bilinear" else a.mode
  original_interpolate
    { input := a.input, size := a.size, scale_factor := a.scale_factor,
      mode := mode, align_corners := a.align_corners,
      recompute_scale_factor := a.recompute_scale_factor,
      antialias := a.antialias }

/-- The function the dispatch entry F.interpolate denotes in a given dispatch
state, given the unpatched library implementation orig. -/
def interpSem {ρ : Type} (orig : InterpArgs → ρ) : Dispatch → InterpArgs → ρ
  | Dispatch.original => orig
  | Dispatch.patched saved => patched_interpolate (interpSem orig saved)

/-- A Python exception: NotImplementedError (the class caught on line 95) with
its message, or an exception of any other class with that class name and its
message. -/
inductive PyError : Type
  | notImplementedError : String → PyError
  | otherError : String → String → PyError
  deriving DecidableEq, Repr

/-- Whether the pattern occurs at the head of the list. -/
def chListAtHead : List Char → List Char → Bool
  | [], _ => true
  | _ :: _, [] => false
  | p :: ps, h :: hs => (p = h) && chListAtHead ps hs

/-- Whether the pattern occurs somewhere in the list. -/
def chListSub (pat : List Char) : List Char → Bool
  | [] => pat.isEmpty
  | h :: t => chListAtHead pat (h :: t) || chListSub pat t

/-- Python substring containment: pat in s. -/
def strContainsSub (s pat : String) : Bool :=
  chListSub pat.toList s.toList

/-- The ct.ImageType argument record built on lines 68-77. -/
structure ImageTypeSpec where
  name : String
  shape : List Nat
  scale : ℚ
  bias : List ℚ
  deriving DecidableEq, Repr

/-- The keyword arguments of ct.convert other than the traced model
(lines 66-79). -/
structure ConvertSpec where
  inputs : List ImageTypeSpec
  minimum_deployment_target : String
  deriving DecidableEq, Repr

/-- The fixed argument record every call of convert_traced_model passes to
ct.convert: shape (1, 3, *INPUT_SIZE), scale 1/(255.0*0.226), the three
per-channel biases, and minimum_deployment_target ct.target.iOS16. -/
def exportSpec : ConvertSpec :=
  { inputs :=
      [{ name := "image",
         shape := 1 :: 3 :: INPUT_SIZE,
         scale := 1 / (255 * (0.226 : ℚ)),
         bias := [-(0.485 : ℚ) / 0.229, -(0.456 : ℚ) / 0.224, -(0.406 : ℚ) / 0.225] }],
    minimum_deployment_target := "iOS16" }

/-- A trace produced by torch.jit.trace: static tracing bakes in the model, the
sample input, and whichever operator implementations (dispatch state) were in
effect at call time. -/
structure TraceRec (μ τ : Type) where
  model : μ
  input : τ
  dispatch : Dispatch
  deriving DecidableEq, Repr

/-- torch.jit.trace under an explicit dispatch state. -/
def torch_jit_trace {μ τ : Type} (model : μ) (x : τ) (d : Dispatch) : TraceRec μ τ :=
  { model := model, input := x, dispatch := d }

/-- convert_traced_model (lines 63-80): applies the opaque lowering function to
the traced model and the fixed exportSpec. -/
def convert_traced_model {μ τ α : Type}
    (cc : TraceRec μ τ → ConvertSpec → Except PyError α)
    (traced : TraceRec μ τ) : Except PyError α :=
  cc traced exportSpec

/-- force_bicubic_to_bilinear (lines 27-60) as a scope combinator on the
dispatch state: capture original_interpolate := current state, install the
patch, run the body, and in the finally block restore the captured state.  The
body's result type β may be an Except to model a body that raises; the restore
is unconditional, matching try/finally. -/
def force_bicubic_to_bilinear {β : Type} (body : Dispatch → β) (d : Dispatch) :
    β × Dispatch :=
  let original_interpolate := d
  let r := body (Dispatch.patched d)
  (r, original_interpolate)

/-- A sequence of sequential, non-overlapping shim activations, each running
its body in the state left by the previous scope; returns the final dispatch
state. -/
def runScopeSeq {β : Type} : List (Dispatch → β) → Dispatch → Dispatch
  | [], d => d
  | b :: rest, d => runScopeSeq rest (force_bicubic_to_bilinear b d).2

/-- One tracer invocation: its arguments and the dispatch state in effect
during the call. -/
structure TraceCall (μ τ : Type) where
  model : μ
  input : τ
  dispatchDuring : Dispatch
  deriving DecidableEq, Repr

/-- One lowering invocation: the trace passed, the fixed spec passed, and the
dispatch state in effect during the call. -/
structure ConvertCall (μ τ : Type) where
  traced : TraceRec μ τ
  spec : ConvertSpec
  dispatchDuring : Dispatch
  deriving DecidableEq, Repr

/-- The observable events of one run of main. -/
structure RunLog (μ τ : Type) where
  traceCalls : List (TraceCall μ τ)
  convertCalls : List (ConvertCall μ τ)
  shimActivations : Nat
  finalDispatch : Dispatch
  deriving DecidableEq, Repr

/-- Lines 89-101 of main, instrumented: trace the wrapper on the dummy input,
attempt conversion; on NotImplementedError whose message does not contain
"upsample_bicubic2d", re-raise; on the matching failure, re-trace under
force_bicubic_to_bilinear and convert the new trace once; any other exception
class is not caught.  Returns the result (artifact or propagated exception)
together with the run log. -/
def runMain {μ τ α : Type} (wrapper : μ) (dummy : τ)
    (cc : TraceRec μ τ → ConvertSpec → Except PyError α) :
    Except PyError α × RunLog μ τ :=
  let d0 := Dispatch.original
  let traced := torch_jit_trace wrapper dummy d0
  let tc1 : TraceCall μ τ := { model := wrapper, input := dummy, dispatchDuring := d0 }
  let call1 : ConvertCall μ τ := { traced := traced, spec := exportSpec, dispatchDuring := d0 }
  match convert_traced_model cc traced with
  | Except.ok mlmodel =>
      (Except.ok mlmodel,
       { traceCalls := [tc1], convertCalls := [call1], shimActivations := 0,
         finalDispatch := d0 })
  | Except.error (PyError.notImplementedError msg) =>
      if strContainsSub msg "upsample_bicubic2d" = false then
        (Except.error (PyError.notImplementedError msg),
         { traceCalls := [tc1], convertCalls := [call1], shimActivations := 0,
           finalDispatch := d0 })
      else
        let p := force_bicubic_to_bilinear (fun d => torch_jit_trace wrapper dummy d) d0
        let traced2 := p.1
        let d2 := p.2
        let tc2 : TraceCall μ τ :=
          { model := wrapper, input := dummy, dispatchDuring := traced2.dispatch }
        let call2 : ConvertCall μ τ :=
          { traced := traced2, spec := exportSpec, dispatchDuring := d2 }
        (convert_traced_model cc traced2,
         { traceCalls := [tc1, tc2], convertCalls := [call1, call2],
           shimActivations := 1, finalDispatch := d2 })
  | Except.error (PyError.otherError cls msg) =>
      (Except.error (PyError.otherError cls msg),
       { traceCalls := [tc1], convertCalls := [call1], shimActivations := 0,
         finalDispatch := d0 })

/-- main with its synthetic input dummy = torch.randn(1, 3, *INPUT_SIZE)
(line 89). -/
def mainExport {μ α : Type} (wrapper : μ) (seed : Nat)
    (cc : TraceRec μ PTensor → ConvertSpec → Except PyError α) :
    Except PyError α × RunLog μ PTensor :=
  runMain wrapper (torch_randn (1 :: 3 :: INPUT_SIZE) seed) cc

/-! ### Branch characterizations of runMain (shared helper lemmas) -/

/-- Helper: the run when the first lowering attempt succeeds. -/
theorem runMain_ok {μ τ α : Type} (wrapper : μ) (dummy : τ)
    (cc : TraceRec μ τ → ConvertSpec → Except PyError α) (art : α)
    (h1 : cc (torch_jit_trace wrapper dummy Dispatch.original) exportSpec = Except.ok art) :
    runMain wrapper dummy cc =
      (Except.ok art,
       { traceCalls := [{ model := wrapper, input := dummy, dispatchDuring := Dispatch.original }],
         convertCalls := [{ traced := torch_jit_trace wrapper dummy Dispatch.original,
                            spec := exportSpec, dispatchDuring := Dispatch.original }],
         shimActivations := 0, finalDispatch := Dispatch.original }) := by
  simp [runMain, convert_traced_model, h1]

/-- Helper: the run when the first attempt fails with a NotImplementedError
whose message does not contain the known operator name. -/
theorem runMain_niMismatch {μ τ α : Type} (wrapper : μ) (dummy : τ)
    (cc : TraceRec μ τ → ConvertSpec → Except PyError α) (msg : String)
    (h1 : cc (torch_jit_trace wrapper dummy Dispatch.original) exportSpec
        = Except.error (PyError.notImplementedError msg))
    (hm : strContainsSub msg "upsample_bicubic2d" = false) :
    runMain wrapper dummy cc =
      (Except.error (PyError.notImplementedError msg),
       { traceCalls := [{ model := wrapper, input := dummy, dispatchDuring := Dispatch.original }],
         convertCalls := [{ traced := torch_jit_trace wrapper dummy Dispatch.original,
                            spec := exportSpec, dispatchDuring := Dispatch.original }],
         shimActivations := 0, finalDispatch := Dispatch.original }) := by
  simp [runMain, convert_traced_model, h1, hm]

/-- Helper: the run when the first attempt fails with a NotImplementedError
whose message contains the known operator name (the fallback path). -/
theorem runMain_fallback {μ τ α : Type} (wrapper : μ) (dummy : τ)
    (cc : TraceRec μ τ → ConvertSpec → Except PyError α) (msg : String)
    (h1 : cc (torch_jit_trace wrapper dummy Dispatch.original) exportSpec
        = Except.error (PyError.notImplementedError msg))
    (hm : strContainsSub msg "upsample_bicubic2d" = true) :
    runMain wrapper dummy cc =
      (cc (torch_jit_trace wrapper dummy (Dispatch.patched Dispatch.original)) exportSpec,
       { traceCalls :=
           [{ model := wrapper, input := dummy, dispatchDuring := Dispatch.original },
            { model := wrapper, input := dummy,
              dispatchDuring := Dispatch.patched Dispatch.original }],
         convertCalls :=
           [{ traced := torch_jit_trace wrapper dummy Dispatch.original,
              spec := exportSpec, dispatchDuring := Dispatch.original },
            { traced := torch_jit_trace wrapper dummy (Dispatch.patched Dispatch.original),
              spec := exportSpec, dispatchDuring := Dispatch.original }],
         shimActivations := 1, finalDispatch := Dispatch.original }) := by
  simp only [torch_jit_trace] at h1
  simp [runMain, convert_traced_model, force_bicubic_to_bilinear, torch_jit_trace, h1, hm]

/-- Helper: the run when the first attempt fails with an exception of a class
other than NotImplementedError. -/
theorem runMain_otherErr {μ τ α : Type} (wrapper : μ) (dummy : τ)
    (cc : TraceRec μ τ → ConvertSpec → Except PyError α) (cls msg : String)
    (h1 : cc (torch_jit_trace wrapper dummy Dispatch.original) exportSpec
        = Except.error (PyError.otherError cls msg)) :
    runMain wrapper dummy cc =
      (Except.error (PyError.otherError cls msg),
       { traceCalls := [{ model := wrapper, input := dummy, dispatchDuring := Dispatch.original }],
         convertCalls := [{ traced := torch_jit_trace wrapper dummy Dispatch.original,
                            spec := exportSpec, dispatchDuring := Dispatch.original }],
         shimActivations := 0, finalDispatch := Dispatch.original }) := by
  simp [runMain, convert_traced_model, h1]

/-! ### Claim theorems -/

/-- Claim C3: on every exit path of force_bicubic_to_bilinear — normal
completion or a body that raises (body result an Except.error) — the original
interpolate dispatch entry is restored, so activating then releasing the shim
is an identity on the dispatch state; any invocation of the operator after the
scope exits uses the implementation of the pre-scope state; and this holds for
every sequence of sequential non-overlapping activations. -/
theorem shim_scope_restores_dispatch {β ρ : Type} (body : Dispatch → β)
    (e : PyError) (bodies : List (Dispatch → β)) (d : Dispatch)
    (orig : InterpArgs → ρ) (a : InterpArgs) :
    (force_bicubic_to_bilinear body d).2 = d
    ∧ (force_bicubic_to_bilinear (fun _ => (Except.error e : Except PyError β)) d).2 = d
    ∧ interpSem orig (force_bicubic_to_bilinear body d).2 a = interpSem orig d a
    ∧ runScopeSeq bodies d = d := by
  refine ⟨rfl, rfl, rfl, ?_⟩
  induction bodies generalizing d with
  | nil => rfl
  | cons b rest ih => exact ih d

/-- Claim C5: while the shim is active, an invocation of interpolate with mode
"bicubic" is redirected to the saved implementation with mode "bilinear", and
every other call parameter (input, size, scale_factor, align_corners,
recompute_scale_factor, antialias) is forwarded unchanged; in particular over
the unpatched state the call reaches the original implementation with only the
mode replaced. -/
theorem patched_redirects_bicubic {ρ : Type} (orig : InterpArgs → ρ)
    (d : Dispatch) (a : InterpArgs) (h : a.mode = "bicubic") :
    (∃ a2 : InterpArgs,
        interpSem orig (Dispatch.patched d) a = interpSem orig d a2
        ∧ a2.mode = "bilinear" ∧ a2.input = a.input ∧ a2.size = a.size
        ∧ a2.scale_factor = a.scale_factor ∧ a2.align_corners = a.align_corners
        ∧ a2.recompute_scale_factor = a.recompute_scale_factor
        ∧ a2.antialias = a.antialias)
    ∧ interpSem orig (Dispatch.patched Dispatch.original) a
        = orig { a with mode := "bilinear" } := by
  constructor
  · refine ⟨{ a with mode := "bilinear" }, ?_, rfl, rfl, rfl, rfl, rfl, rfl, rfl⟩
    simp [interpSem, patched_interpolate, h]
  · simp [interpSem, patched_interpolate, h]

/-- Claim C9: the shim alters only the bicubic operator: while it is active,
an invocation of interpolate with any mode other than "bicubic" (the default
"nearest" included) produces exactly the result of the original unpatched
implementation on the same arguments, and over any saved state it forwards the
arguments unchanged. -/
theorem patched_preserves_non_bicubic {ρ : Type} (orig : InterpArgs → ρ)
    (d : Dispatch) (a : InterpArgs) (h : a.mode ≠ "bicubic") :
    interpSem orig (Dispatch.patched Dispatch.original) a = orig a
    ∧ interpSem orig (Dispatch.patched d) a = interpSem orig d a := by
  constructor
  · simp [interpSem, patched_interpolate, h]
  · simp [interpSem, patched_interpolate, h]

/-- Claim C1: when the lowering function fails on every call with the known
unsupported-operator identifier, the orchestrator performs exactly two lowering
attempts — the original and one retry after re-tracing under the shim — and
propagates the second failure; there is never a third attempt. -/
theorem fallback_exactly_two_attempts {μ τ α : Type} (wrapper : μ) (dummy : τ)
    (cc : TraceRec μ τ → ConvertSpec → Except PyError α) (msg : String) (e2 : PyError)
    (h1 : cc (torch_jit_trace wrapper dummy Dispatch.original) exportSpec
        = Except.error (PyError.notImplementedError msg))
    (hm : strContainsSub msg "upsample_bicubic2d" = true)
    (h2 : cc (torch_jit_trace wrapper dummy (Dispatch.patched Dispatch.original)) exportSpec
        = Except.error e2) :
    (runMain wrapper dummy cc).2.convertCalls.length = 2
    ∧ (runMain wrapper dummy cc).1 = Except.error e2 := by
  rw [runMain_fallback wrapper dummy cc msg h1 hm]
  exact ⟨rfl, h2⟩

/-- Claim C2: a first-attempt NotImplementedError whose message does not carry
the operator name upsample_bicubic2d does not activate the shim, produces no
second trace, and is propagated unchanged — so the matching decision inspects
the operator name carried by the failure, not merely the failure's class. -/
theorem selective_fallback_propagates {μ τ α : Type} (wrapper : μ) (dummy : τ)
    (cc : TraceRec μ τ → ConvertSpec → Except PyError α) (msg : String)
    (h1 : cc (torch_jit_trace wrapper dummy Dispatch.original) exportSpec
        = Except.error (PyError.notImplementedError msg))
    (hm : strContainsSub msg "upsample_bicubic2d" = false) :
    (runMain wrapper dummy cc).1 = Except.error (PyError.notImplementedError msg)
    ∧ (runMain wrapper dummy cc).2.shimActivations = 0
    ∧ (runMain wrapper dummy cc).2.traceCalls.length = 1
    ∧ (runMain wrapper dummy cc).2.convertCalls.length = 1 := by
  rw [runMain_niMismatch wrapper dummy cc msg h1 hm]
  exact ⟨rfl, rfl, rfl, rfl⟩

/-- Claim C4: in the fallback path the operator override is active during the
second trace call and only then — the first trace and both lowering calls run
under the original dispatch, and the dispatch is original again after the
fallback completes. -/
theorem shim_active_only_during_second_trace {μ τ α : Type} (wrapper : μ) (dummy : τ)
    (cc : TraceRec μ τ → ConvertSpec → Except PyError α) (msg : String)
    (h1 : cc (torch_jit_trace wrapper dummy Dispatch.original) exportSpec
        = Except.error (PyError.notImplementedError msg))
    (hm : strContainsSub msg "upsample_bicubic2d" = true) :
    ((runMain wrapper dummy cc).2.traceCalls.map TraceCall.dispatchDuring)
        = [Dispatch.original, Dispatch.patched Dispatch.original]
    ∧ ((runMain wrapper dummy cc).2.convertCalls.map ConvertCall.dispatchDuring)
        = [Dispatch.original, Dispatch.original]
    ∧ (runMain wrapper dummy cc).2.finalDispatch = Dispatch.original := by
  rw [runMain_fallback wrapper dummy cc msg h1 hm]
  exact ⟨rfl, rfl, rfl⟩

/-- Claim C6: when the lowering function succeeds on the first attempt, the
shim is never activated, the tracer is invoked exactly once, and the returned
artifact is the one the lowering function produced from that single first
trace. -/
theorem success_short_circuits {μ τ α : Type} (wrapper : μ) (dummy : τ)
    (cc : TraceRec μ τ → ConvertSpec → Except PyError α) (art : α)
    (h1 : cc (torch_jit_trace wrapper dummy Dispatch.original) exportSpec
        = Except.ok art) :
    (runMain wrapper dummy cc).1 = Except.ok art
    ∧ (runMain wrapper dummy cc).2.shimActivations = 0
    ∧ (runMain wrapper dummy cc).2.traceCalls.length = 1
    ∧ (runMain wrapper dummy cc).2.convertCalls.map ConvertCall.traced
        = [torch_jit_trace wrapper dummy Dispatch.original] := by
  rw [runMain_ok wrapper dummy cc art h1]
  exact ⟨rfl, rfl, rfl, rfl⟩

/-- Claim C7: whenever the fallback path re-invokes the tracer, it passes the
exact same Model object and the exact same synthetic sample input — same
tensor value and same 1x3x518x518 shape — as the first trace. -/
theorem retrace_same_model_and_input {μ α : Type} (wrapper : μ) (seed : Nat)
    (cc : TraceRec μ PTensor → ConvertSpec → Except PyError α) (msg : String)
    (h1 : cc (torch_jit_trace wrapper (torch_randn (1 :: 3 :: INPUT_SIZE) seed)
            Dispatch.original) exportSpec
        = Except.error (PyError.notImplementedError msg))
    (hm : strContainsSub msg "upsample_bicubic2d" = true) :
    ∃ t1 t2 : TraceCall μ PTensor,
      (mainExport wrapper seed cc).2.traceCalls = [t1, t2]
      ∧ t2.model = t1.model ∧ t2.input = t1.input
      ∧ t1.model = wrapper ∧ t2.input.shape = [1, 3, 518, 518] := by
  refine ⟨{ model := wrapper, input := torch_randn (1 :: 3 :: INPUT_SIZE) seed,
            dispatchDuring := Dispatch.original },
          { model := wrapper, input := torch_randn (1 :: 3 :: INPUT_SIZE) seed,
            dispatchDuring := Dispatch.patched Dispatch.original },
          ?_, rfl, rfl, rfl, rfl⟩
  unfold mainExport
  rw [runMain_fallback wrapper (torch_randn (1 :: 3 :: INPUT_SIZE) seed) cc msg h1 hm]

/-- Claim C8: every lowering call of any run passes the fixed argument record:
one named image input of shape (1, 3, 518, 518), scale 1/(255*0.226),
per-channel bias [-0.485/0.229, -0.456/0.224, -0.406/0.225], and the minimum
platform version iOS16. -/
theorem convert_always_uses_export_spec {μ τ α : Type} (wrapper : μ) (dummy : τ)
    (cc : TraceRec μ τ → ConvertSpec → Except PyError α) (c : ConvertCall μ τ)
    (hc : c ∈ (runMain wrapper dummy cc).2.convertCalls) :
    c.spec = exportSpec
    ∧ exportSpec.inputs
        = [{ name := "image", shape := [1, 3, 518, 518],
             scale := 1 / (255 * (0.226 : ℚ)),
             bias := [-(0.485 : ℚ) / 0.229, -(0.456 : ℚ) / 0.224,
                      -(0.406 : ℚ) / 0.225] }]
    ∧ exportSpec.minimum_deployment_target = "iOS16" := by
  refine ⟨?_, rfl, rfl⟩
  rcases hval : cc (torch_jit_trace wrapper dummy Dispatch.original) exportSpec with e | art
  · rcases e with msg | ⟨cls, msg⟩
    · cases hsub : strContainsSub msg "upsample_bicubic2d" with
      | false =>
          rw [runMain_niMismatch wrapper dummy cc msg hval hsub] at hc
          simp only [List.mem_singleton] at hc
          subst hc; rfl
      | true =>
          rw [runMain_fallback wrapper dummy cc msg hval hsub] at hc
          simp only [List.mem_cons, List.not_mem_nil, or_false] at hc
          rcases hc with h | h <;> (subst h; rfl)
    · rw [runMain_otherErr wrapper dummy cc cls msg hval] at hc
      simp only [List.mem_singleton] at hc
      subst hc; rfl
  · rw [runMain_ok wrapper dummy cc art hval] at hc
    simp only [List.mem_singleton] at hc
    subst hc; rfl

/-- Claim C10: a first-attempt failure of any exception class other than
NotImplementedError propagates to the caller without shim activation and
without a second lowering attempt, even when its message contains the operator
name upsample_bicubic2d. -/
theorem other_class_propagates {μ τ α : Type} (wrapper : μ) (dummy : τ)
    (cc : TraceRec μ τ → ConvertSpec → Except PyError α) (cls msg : String)
    (h1 : cc (torch_jit_trace wrapper dummy Dispatch.original) exportSpec
        = Except.error (PyError.otherError cls msg))
    (hm : strContainsSub msg "upsample_bicubic2d" = true) :
    (runMain wrapper dummy cc).1 = Except.error (PyError.otherError cls msg)
    ∧ (runMain wrapper dummy cc).2.shimActivations = 0
    ∧ (runMain wrapper dummy cc).2.convertCalls.length = 1
    ∧ (runMain wrapper dummy cc).2.traceCalls.length = 1 := by
  rw [runMain_otherErr wrapper dummy cc cls msg h1]
  exact ⟨rfl, rfl, rfl, rfl⟩

/-! ### Concrete instantiations for the witnesses -/

/-- The message of the unsupported-operator failure raised by the lowering
library for upsample_bicubic2d. -/
def failMsg : String :=
  "PyTorch convert function for op upsample_bicubic2d not implemented."

/-- The message of an unsupported-operator failure for an unrelated operator. -/
def otherOpMsg : String :=
  "PyTorch convert function for op grid_sampler not implemented."

/-- A lowering function that fails on every call with the known identifier. -/
def ccAlwaysFail : TraceRec Nat Nat → ConvertSpec → Except PyError Nat :=
  fun _ _ => Except.error (PyError.notImplementedError failMsg)

/-- A lowering function that fails with a different operator identifier. -/
def ccOtherOp : TraceRec Nat Nat → ConvertSpec → Except PyError Nat :=
  fun _ _ => Except.error (PyError.notImplementedError otherOpMsg)

/-- A lowering function that succeeds on the first attempt. -/
def ccOk : TraceRec Nat Nat → ConvertSpec → Except PyError Nat :=
  fun _ _ => Except.ok 42

/-- A lowering function that fails with a non-NotImplementedError class whose
message nevertheless contains the known operator name. -/
def ccValueError : TraceRec Nat Nat → ConvertSpec → Except PyError Nat :=
  fun _ _ => Except.error (PyError.otherError "ValueError" failMsg)

/-- A lowering function over PTensor inputs that always fails with the known
identifier. -/
def ccFailP : TraceRec Nat PTensor → ConvertSpec → Except PyError Nat :=
  fun _ _ => Except.error (PyError.notImplementedError failMsg)

/-- A concrete bicubic interpolate call. -/
def bicubicCallArgs : InterpArgs :=
  { interpDefaults (torch_randn [1, 3, 37, 37] 5) with
      mode := "bicubic", align_corners := some false }

/-- The first lowering call of a successful run over Nat models and inputs. -/
def firstCall : ConvertCall Nat Nat :=
  { traced := torch_jit_trace 0 0 Dispatch.original, spec := exportSpec,
    dispatchDuring := Dispatch.original }

/-! ### Witnesses -/

/-- Witness for C1 at the always-failing lowering function. -/
theorem fallback_exactly_two_attempts_witness :
    strContainsSub failMsg "upsample_bicubic2d" = true
    ∧ (runMain (0 : Nat) (0 : Nat) ccAlwaysFail).2.convertCalls.length = 2
    ∧ (runMain (0 : Nat) (0 : Nat) ccAlwaysFail).1
        = Except.error (PyError.notImplementedError failMsg) := by
  have h := fallback_exactly_two_attempts (0 : Nat) (0 : Nat) ccAlwaysFail failMsg
    (PyError.notImplementedError failMsg) rfl (by decide) rfl
  exact ⟨by decide, h.1, h.2⟩

/-- Witness for C2 at a lowering function failing for grid_sampler. -/
theorem selective_fallback_propagates_witness :
    strContainsSub otherOpMsg "upsample_bicubic2d" = false
    ∧ (runMain (0 : Nat) (0 : Nat) ccOtherOp).1
        = Except.error (PyError.notImplementedError otherOpMsg)
    ∧ (runMain (0 : Nat) (0 : Nat) ccOtherOp).2.shimActivations = 0
    ∧ (runMain (0 : Nat) (0 : Nat) ccOtherOp).2.traceCalls.length = 1 := by
  have h := selective_fallback_propagates (0 : Nat) (0 : Nat) ccOtherOp otherOpMsg
    rfl (by decide)
  exact ⟨by decide, h.1, h.2.1, h.2.2.1⟩

/-- Witness for C4 at the always-failing lowering function. -/
theorem shim_active_only_during_second_trace_witness :
    strContainsSub failMsg "upsample_bicubic2d" = true
    ∧ ((runMain (0 : Nat) (0 : Nat) ccAlwaysFail).2.traceCalls.map TraceCall.dispatchDuring)
        = [Dispatch.original, Dispatch.patched Dispatch.original]
    ∧ ((runMain (0 : Nat) (0 : Nat) ccAlwaysFail).2.convertCalls.map ConvertCall.dispatchDuring)
        = [Dispatch.original, Dispatch.original]
    ∧ (runMain (0 : Nat) (0 : Nat) ccAlwaysFail).2.finalDispatch = Dispatch.original := by
  have h := shim_active_only_during_second_trace (0 : Nat) (0 : Nat) ccAlwaysFail failMsg
    rfl (by decide)
  exact ⟨by decide, h.1, h.2.1, h.2.2⟩

/-- Witness for C5 at a concrete bicubic call over the identity original
implementation. -/
theorem patched_redirects_bicubic_witness :
    bicubicCallArgs.mode = "bicubic"
    ∧ interpSem id (Dispatch.patched Dispatch.original) bicubicCallArgs
        = { bicubicCallArgs with mode := "bilinear" } := by
  have h := patched_redirects_bicubic id Dispatch.original bicubicCallArgs (by decide)
  exact ⟨by decide, h.2⟩

/-- Witness for C6 at a lowering function that succeeds immediately. -/
theorem success_short_circuits_witness :
    (runMain (0 : Nat) (0 : Nat) ccOk).1 = Except.ok 42
    ∧ (runMain (0 : Nat) (0 : Nat) ccOk).2.shimActivations = 0
    ∧ (runMain (0 : Nat) (0 : Nat) ccOk).2.traceCalls.length = 1 := by
  have h := success_short_circuits (0 : Nat) (0 : Nat) ccOk 42 rfl
  exact ⟨h.1, h.2.1, h.2.2.1⟩

/-- Witness for C7 at the always-failing PTensor lowering function. -/
theorem retrace_same_model_and_input_witness :
    strContainsSub failMsg "upsample_bicubic2d" = true
    ∧ ∃ t1 t2 : TraceCall Nat PTensor,
        (mainExport (0 : Nat) 0 ccFailP).2.traceCalls = [t1, t2]
        ∧ t2.model = t1.model ∧ t2.input = t1.input
        ∧ t1.model = 0 ∧ t2.input.shape = [1, 3, 518, 518] :=
  ⟨by decide, retrace_same_model_and_input (0 : Nat) 0 ccFailP failMsg rfl (by decide)⟩

/-- Witness for C8 at the single lowering call of a successful run. -/
theorem convert_always_uses_export_spec_witness :
    firstCall ∈ (runMain (0 : Nat) (0 : Nat) ccOk).2.convertCalls
    ∧ firstCall.spec = exportSpec := by
  have hmem : firstCall ∈ (runMain (0 : Nat) (0 : Nat) ccOk).2.convertCalls := by
    simp [runMain, convert_traced_model, ccOk, firstCall, torch_jit_trace]
  exact ⟨hmem, (convert_always_uses_export_spec (0 : Nat) (0 : Nat) ccOk firstCall hmem).1⟩

/-- Witness for C9 at an interpolate call with all-default keyword arguments
(mode "nearest") over the identity original implementation. -/
theorem patched_preserves_non_bicubic_witness :
    (interpDefaults (torch_randn [1, 3, 37, 37] 5)).mode ≠ "bicubic"
    ∧ interpSem id (Dispatch.patched Dispatch.original)
        (interpDefaults (torch_randn [1, 3, 37, 37] 5))
        = interpDefaults (torch_randn [1, 3, 37, 37] 5) := by
  have h := patched_preserves_non_bicubic id Dispatch.original
    (interpDefaults (torch_randn [1, 3, 37, 37] 5)) (by decide)
  exact ⟨by decide, h.1⟩

/-- Witness for C10 at a ValueError whose message contains the operator name. -/
theorem other_class_propagates_witness :
    strContainsSub failMsg "upsample_bicubic2d" = true
    ∧ (runMain (0 : Nat) (0 : Nat) ccValueError).1
        = Except.error (PyError.otherError "ValueError" failMsg)
    ∧ (runMain (0 : Nat) (0 : Nat) ccValueError).2.shimActivations = 0
    ∧ (runMain (0 : Nat) (0 : Nat) ccValueError).2.convertCalls.length = 1 := by
  have h := other_class_propagates (0 : Nat) (0 : Nat) ccValueError "ValueError" failMsg
    rfl (by decide)
  exact ⟨by decide, h.1, h.2.1, h.2.2.1⟩
